import Mathlib

/-!
# Dashboard page scripts of BAC0 (`BAC0_script.js`, `bac0.js`)

A shallow embedding of the two page scripts.  The page is a record holding
what the scripts can observe or change: the log of issued requests, the
requests still in flight together with the success callback registered for
them, the notifications shown, the charts constructed, the uncaught errors
raised in handlers, the text of the four display elements and the
`#display-buttons` group.  Every handler of the scripts is a function on
that record and the browser's event loop is a fold of `step` over a list of
events.

The template value `{{ request.script_root|tojson|safe }}` is the parameter
`root` of every handler that reads it.
-/

namespace BAC0

/-! ## Values -/

/-- An integer that JavaScript holds exactly and prints in plain decimal
digits: magnitude at most `2^53 - 1`. -/
def SafeInt : Type := { n : Int // n.natAbs < 9007199254740992 }

/-- A JavaScript value as the scripts meet it: `undefined` (the value of an
absent property) or a parsed JSON value.  A number is either a safe integer
or any other number; the latter is given by the text JavaScript prints for it
(`"1.5"`, `"1e+21"`), since the conversion of a double to that text lies
outside this embedding. -/
inductive JsVal where
  | undefined
  | null
  | bool (b : Bool)
  | int (n : SafeInt)
  | real (text : String)
  | str (s : String)
  | arr (items : List JsVal)
  | obj (fields : List (String × JsVal))

/-- The parsed body handed to a success callback of `$.getJSON`. -/
abbrev Payload : Type := JsVal

/-- An error thrown by a handler and caught by nobody. -/
inductive JsError where
  | typeError
deriving DecidableEq, Repr

/-- The property read `data.name`: a `TypeError` on `null` and `undefined`,
the property's value on an object, `undefined` when the object has no such
property and on every other value (none of the names the scripts read is a
property of a boolean, a number, a string or an array). -/
def getProp (data : Payload) (name : String) : Except JsError JsVal :=
  match data with
  | .undefined => .error .typeError
  | .null => .error .typeError
  | .obj fields => .ok ((fields.lookup name).getD .undefined)
  | _ => .ok .undefined

/-- Whether a value is `null` or `undefined`. -/
def isNullish : JsVal → Bool
  | .undefined => true
  | .null => true
  | _ => false

mutual
/-- The string rendering `String(v)` of a value: safe integers in decimal
digits, any other number by the text JavaScript prints for it, arrays as their
elements joined by commas, objects as `[object Object]`. -/
def jsString : JsVal → String
  | .undefined => "undefined"
  | .null => "null"
  | .bool true => "true"
  | .bool false => "false"
  | .int n => toString n.val
  | .real text => text
  | .str s => s
  | .arr items => joinItems items
  | .obj _ => "[object Object]"
/-- The elements of an array joined by commas (`Array.prototype.join`): a
`null` or `undefined` element contributes the empty string. -/
def joinItems : List JsVal → String
  | [] => ""
  | [x] => if isNullish x then "" else jsString x
  | x :: y :: rest => (if isNullish x then "" else jsString x) ++ "," ++ joinItems (y :: rest)
end

/-- The text an element holds after `$(sel).text(v)` for a value `v` other than
`undefined`: the string rendering of `v`, except for `null`, where the text is
`textOfNull`, which depends on the jQuery release (the 1.x releases write
`"null"`, the 2.x and 3.x releases leave the element empty). -/
def textWritten (textOfNull : String) (v : JsVal) : String :=
  match v with
  | .null => textOfNull
  | w => jsString w

/-- The call `$(sel).text(v)` on an existing element whose text is `old`:
with `undefined` the call is the getter and writes nothing, with any other
value the element's text becomes `textWritten textOfNull v`. -/
def jqText (textOfNull : String) (v : JsVal) (old : String) : String :=
  match v with
  | .undefined => old
  | w => textWritten textOfNull w

/-! ## The page -/

/-- The success callback registered with a request: none (`ignore`), the
first callback of `update_values` (`stats`) or its second (`data`). -/
inductive Callback where
  | ignore
  | stats
  | data
deriving DecidableEq, Repr

/-- A request in flight: its URL and its success callback. -/
structure Request where
  url : String
  callback : Callback
deriving DecidableEq, Repr

/-- The arguments of one call of `$.notify`. -/
structure Notification where
  icon : String
  message : String
  type : String
  timer : Nat
deriving DecidableEq, Repr

/-- The object `optionsNetworkAndDevices` of `initChartist`. -/
structure PieOptions where
  donut : Bool
  donutWidth : Nat
  startAngle : Nat
  total : Nat
  showLabel : Bool
  axisXShowGrid : Bool
deriving DecidableEq, Repr

/-- The object literal with properties `labels` and `series`. -/
structure SeriesObj where
  labels : JsVal
  series : JsVal

/-- One call of `Chartist.Pie`, its three arguments in the order of the call. -/
structure ChartCall where
  query : String
  second : PieOptions
  third : SeriesObj

/-- The element `#display-buttons`: its `data-class` attribute (`none` when
the attribute is absent) and the class tokens of each of its descendant
elements, in document order. -/
structure DisplayDiv where
  dataClass : Option String
  descendants : List (List String)
deriving DecidableEq, Repr

/-- The page as the scripts see it.  `textOfNull` is no state but a constant
of the jQuery release the page has loaded: the text `.text(null)` leaves in an
element. -/
structure Page where
  textOfNull : String
  requests : List String
  inflight : List Request
  notifications : List Notification
  charts : List ChartCall
  uncaught : List JsError
  mstpnetworks : String
  lastwhoisupdate : String
  devices : String
  trends : String
  displayButtons : Option DisplayDiv

/-- The page right after it is loaded, before any handler has run: the four
display elements hold the text of the markup, nothing has been requested;
`jq` is the text `.text(null)` leaves under the jQuery release loaded. -/
def Page.loaded (jq m l d t : String) (g : Option DisplayDiv) : Page :=
  { textOfNull := jq, requests := [], inflight := [], notifications := [], charts := [],
    uncaught := [], mstpnetworks := m, lastwhoisupdate := l, devices := d,
    trends := t, displayButtons := g }

/-- The call `$.getJSON(url, callback)`: the request is issued and stays in
flight until its response arrives. -/
def getJSON (url : String) (cb : Callback) (s : Page) : Page :=
  { s with requests := s.requests ++ [url], inflight := s.inflight ++ [⟨url, cb⟩] }

/-- The call `$.notify(content, settings)`. -/
def notify (n : Notification) (s : Page) : Page :=
  { s with notifications := s.notifications ++ [n] }

/-! ## `BAC0_script.js` -/

/-- The function `update_values`, run by `setInterval(update_values, 1000)`. -/
def update_values (root : String) (s : Page) : Page :=
  getJSON (root ++ "/_dash_live_data") .data
    (getJSON (root ++ "/_dash_live_stats") .stats s)

/-- The success callback of the request to `/_dash_live_stats`. -/
def statsSuccess (data : Payload) (s : Page) : Page :=
  match getProp data "print_mstpnetworks" with
  | .error e => { s with uncaught := s.uncaught ++ [e] }
  | .ok v =>
    let s1 := { s with mstpnetworks := jqText s.textOfNull v s.mstpnetworks }
    match getProp data "timestamp" with
    | .error e => { s1 with uncaught := s1.uncaught ++ [e] }
    | .ok t => { s1 with lastwhoisupdate := jqText s.textOfNull t s1.lastwhoisupdate }

/-- The success callback of the request to `/_dash_live_data`. -/
def dataSuccess (data : Payload) (s : Page) : Page :=
  match getProp data "number_of_devices" with
  | .error e => { s with uncaught := s.uncaught ++ [e] }
  | .ok v =>
    let s1 := { s with devices := jqText s.textOfNull v s.devices }
    match getProp data "number_of_registered_trends" with
    | .error e => { s1 with uncaught := s1.uncaught ++ [e] }
    | .ok t => { s1 with trends := jqText s.textOfNull t s1.trends }

/-- The function `callWhois`. -/
def callWhois (root : String) (s : Page) : Page :=
  getJSON (root ++ "/_whois") .ignore s

/-- The notification of the click handler of `#discover`. -/
def discoverNote : Notification :=
  { icon := "ti-world", message := "Discovering devices", type := "success", timer := 1000 }

/-- The click handler bound to `#discover`. -/
def discoverClick (root : String) (s : Page) : Page :=
  notify discoverNote (callWhois root s)

/-! ## `bac0.js` -/

/-- The object `optionsNetworkAndDevices`. -/
def optionsNetworkAndDevices : PieOptions :=
  { donut := true, donutWidth := 40, startAngle := 0, total := 100,
    showLabel := false, axisXShowGrid := false }

/-- A property read on the object `$.getJSON` returns.  That object is the
request handle (jqXHR), not the parsed body, and it has neither a property
`labels` nor a property `series_pct`: both reads give `undefined`. -/
def jqXHRProp (_name : String) : JsVal := .undefined

/-- The function `bac0.initChartist`: the request is issued with no callback,
`pie_chart_data` is the handle `$.getJSON` returns, and `Chartist.Pie` is
called at once with the selector, the options object and the object literal
built from `pie_chart_data.labels` and `pie_chart_data.series_pct`. -/
def initChartist (root : String) (s : Page) : Page :=
  let s1 := getJSON (root ++ "/_network_pie_chart") .ignore s
  { s1 with charts := s1.charts ++
      [{ query := "#chartNetworkAndDevices",
         second := optionsNetworkAndDevices,
         third := { labels := jqXHRProp "labels", series := jqXHRProp "series_pct" } }] }

/-- Whitespace that separates class names in jQuery (`rnothtmlwhite`). -/
def isHtmlSpace (c : Char) : Bool :=
  c == ' ' || c == '\t' || c == '\n' || c == '\r' || c == Char.ofNat 12

/-- Split a character list at whitespace; `cur` is the token being read, in
reverse. -/
def splitTokens : List Char → List Char → List String
  | [], cur => if cur = [] then [] else [String.mk cur.reverse]
  | c :: cs, cur =>
    if isHtmlSpace c then
      (if cur = [] then splitTokens cs [] else String.mk cur.reverse :: splitTokens cs [])
    else splitTokens cs (c :: cur)

/-- The class names jQuery reads from the argument of `addClass` and
`removeClass`: none for `undefined`, the whitespace-separated tokens of a
string. -/
def classesToArray (value : Option String) : List String :=
  match value with
  | none => []
  | some v => splitTokens v.data []

/-- The call `removeClass(value)` on one element: every occurrence of every
class name of `value` is removed. -/
def removeClass (value : Option String) (cls : List String) : List String :=
  cls.filter (fun t => !(classesToArray value).contains t)

/-- The call `addClass(value)` on one element: each class name of `value` that
the element does not carry yet is appended. -/
def addClass (value : Option String) (cls : List String) : List String :=
  (classesToArray value).foldl (fun cur t => if cur.contains t then cur else cur ++ [t]) cls

/-- The call `attr(name, value)` on an element whose attribute is `cur`: with
`undefined` the call is the getter and writes nothing, with a string the
attribute takes that value. -/
def jqAttr (value : Option String) (cur : Option String) : Option String :=
  match value with
  | none => cur
  | some v => some v

/-- Apply `f` to the elements of a matched set, given as a mask over the
descendants. -/
def onMatched (f : List String → List String) : List Bool → List (List String) → List (List String)
  | m :: ms, e :: es => (if m then f e else e) :: onMatched f ms es
  | _, es => es

/-- The click handler `bac0.initPickColor` binds to every `.pick-class-label`;
`new_class` is the `new-class` attribute of the clicked control (`none` when
it has none).  The matched set `display_buttons` is computed once, before any
class is removed, and both `removeClass` and `addClass` run over that set. -/
def pickColorClick (new_class : Option String) (s : Page) : Page :=
  let old_class := s.displayButtons.bind (fun d => d.dataClass)
  match s.displayButtons with
  | none => s
  | some display_div =>
    let display_buttons := display_div.descendants.map (fun e => e.contains "btn")
    let removed := onMatched (removeClass old_class) display_buttons display_div.descendants
    let added := onMatched (addClass new_class) display_buttons removed
    { s with displayButtons := some ⟨jqAttr new_class display_div.dataClass, added⟩ }

/-- Modelled from the spec: the function `updatePieChart` that the
document-ready handler calls is defined in neither script.  The spec's chart
loader "issues one request for chart data and constructs a donut-style
visualization", once, on page load; that is the chart loader of `bac0.js`, so
the call is the call of `initChartist`. -/
def updatePieChart (root : String) (s : Page) : Page :=
  initChartist root s

/-- The notification of the document-ready handler. -/
def readyNote : Notification :=
  { icon := "ti-github",
    message := "Join the project on Github and contribute to this open source project !",
    type := "success", timer := 4000 }

/-- The document-ready handler of `BAC0_script.js`. -/
def ready (root : String) (s : Page) : Page :=
  notify readyNote (updatePieChart root s)

/-! ## The event loop -/

/-- What can happen on the page: the document becomes ready, the interval
timer fires, `#discover` or a palette control is clicked, or the response of
the `i`-th request in flight arrives (`none` for a failure, the parsed body for
a success). -/
inductive Event where
  | ready
  | tick
  | clickDiscover
  | clickPick (new_class : Option String)
  | response (i : Nat) (result : Option Payload)

instance (e : Event) : Decidable (e = Event.tick) := by
  cases e <;> first | exact isTrue rfl | exact isFalse (fun h => Event.noConfusion h)

instance (e : Event) : Decidable (e = Event.ready) := by
  cases e <;> first | exact isTrue rfl | exact isFalse (fun h => Event.noConfusion h)

/-- The response of the `i`-th request in flight arrives.  A failure runs no
code of the page (no failure callback is ever registered); a success runs the
success callback of the request, if it has one. -/
def complete (i : Nat) (result : Option Payload) (s : Page) : Page :=
  match s.inflight[i]? with
  | none => s
  | some r =>
    let s1 := { s with inflight := s.inflight.eraseIdx i }
    match result with
    | none => s1
    | some data =>
      match r.callback with
      | .ignore => s1
      | .stats => statsSuccess data s1
      | .data => dataSuccess data s1

/-- One turn of the event loop. -/
def step (root : String) (s : Page) : Event → Page
  | .ready => ready root s
  | .tick => update_values root s
  | .clickDiscover => discoverClick root s
  | .clickPick new_class => pickColorClick new_class s
  | .response i result => complete i result s

/-- The page after a sequence of events. -/
def run (root : String) (s : Page) (evs : List Event) : Page :=
  evs.foldl (step root) s

/-- The number of times the interval timer has fired in a sequence of events. -/
def ticks (evs : List Event) : Nat :=
  (evs.filter (fun e => e = Event.tick)).length

/-- The number of requests to `url` in a request log. -/
def requestsTo (url : String) (log : List String) : Nat :=
  (log.filter (fun u => u = url)).length

/-- Whether a URL is one of the two URLs polled by `update_values`. -/
def isPoll (root url : String) : Bool :=
  url = root ++ "/_dash_live_stats" || url = root ++ "/_dash_live_data"

/-- The URLs requested by the handler of one event, in the order of the
calls of `$.getJSON` in that handler (`step_requests` proves that `step`
appends exactly these to the request log). -/
def issued (root : String) : Event → List String
  | .ready => [root ++ "/_network_pie_chart"]
  | .tick => [root ++ "/_dash_live_stats", root ++ "/_dash_live_data"]
  | .clickDiscover => [root ++ "/_whois"]
  | .clickPick _ => []
  | .response _ _ => []

/-- The URLs requested during a sequence of events. -/
def issuedAll (root : String) : List Event → List String
  | [] => []
  | e :: evs => issued root e ++ issuedAll root evs

/-- The number of times the document-ready handler runs in a sequence of
events. -/
def readies (evs : List Event) : Nat :=
  (evs.filter (fun e => e = Event.ready)).length

/-- A single class name: a non-empty string without whitespace. -/
def IsClassToken (c : String) : Prop :=
  c.data ≠ [] ∧ ∀ ch ∈ c.data, isHtmlSpace ch = false

instance (c : String) : Decidable (IsClassToken c) := by
  unfold IsClassToken
  exact inferInstance

/-- Element by element, two lists of elements carry the same sets of class
names. -/
def SameClassSets : List (List String) → List (List String) → Prop
  | [], [] => True
  | x :: xs, y :: ys => ((∀ t ∈ x, t ∈ y) ∧ (∀ t ∈ y, t ∈ x)) ∧ SameClassSets xs ys
  | _, _ => False

/-- Two states of the `#display-buttons` group agree: the element is absent in
both, or present in both with the same `data-class` attribute and the same
class set on every descendant. -/
def SameGroupState : Option DisplayDiv → Option DisplayDiv → Prop
  | none, none => True
  | some a, some b => a.dataClass = b.dataClass ∧ SameClassSets a.descendants b.descendants
  | _, _ => False

/-- What one palette click does to one descendant of `#display-buttons`: an
element matching `.btn` loses the classes of `old_class` and then gains those
of `new_class`, any other element is left alone (`pickColorClick_some` proves
that the handler maps this over the descendants). -/
def repaint (old_class new_class : Option String) (e : List String) : List String :=
  if e.contains "btn" then addClass new_class (removeClass old_class e) else e

/-- The `.btn` members of `#display-buttons`, the set
`$('#display-buttons').find('.btn')`: none when the element is absent. -/
def btnMembers (s : Page) : List (List String) :=
  match s.displayButtons with
  | none => []
  | some d => d.descendants.filter (fun e => e.contains "btn")

/-- The events of a sequence of clicks on palette controls, given by the
`new-class` values of the clicked controls. -/
def paletteClicks (clicks : List String) : List Event :=
  clicks.map (fun c => Event.clickPick (some c))

/-- The requests the scripts issue, each with the success callback its call
of `$.getJSON` registers. -/
def knownRequests (root : String) : List Request :=
  [⟨root ++ "/_dash_live_stats", .stats⟩, ⟨root ++ "/_dash_live_data", .data⟩,
   ⟨root ++ "/_whois", .ignore⟩, ⟨root ++ "/_network_pie_chart", .ignore⟩]

/-! ## Auxiliary facts -/

theorem url_eq_iff (root a b : String) : root ++ a = root ++ b ↔ a = b := by
  constructor
  · intro h
    have h2 := congrArg String.data h
    simp only [String.data_append, List.append_cancel_left_eq] at h2
    exact String.ext h2
  · intro h
    rw [h]

@[simp] theorem statsSuccess_requests (data : Payload) (s : Page) :
    (statsSuccess data s).requests = s.requests := by
  cases data <;> simp [statsSuccess, getProp]

@[simp] theorem dataSuccess_requests (data : Payload) (s : Page) :
    (dataSuccess data s).requests = s.requests := by
  cases data <;> simp [dataSuccess, getProp]

@[simp] theorem complete_requests (i : Nat) (r : Option Payload) (s : Page) :
    (complete i r s).requests = s.requests := by
  unfold complete
  cases s.inflight[i]? with
  | none => rfl
  | some q =>
    cases r with
    | none => rfl
    | some data => cases hq : q.callback <;> simp [hq]

@[simp] theorem pickColorClick_requests (c : Option String) (s : Page) :
    (pickColorClick c s).requests = s.requests := by
  unfold pickColorClick
  cases s.displayButtons <;> rfl

@[simp] theorem pickColorClick_inflight (c : Option String) (s : Page) :
    (pickColorClick c s).inflight = s.inflight := by
  unfold pickColorClick
  cases s.displayButtons <;> rfl

theorem complete_stats (i : Nat) (data : Payload) (s : Page)
    (h : (s.inflight[i]?).map Request.callback = some Callback.stats) :
    complete i (some data) s = statsSuccess data { s with inflight := s.inflight.eraseIdx i } := by
  unfold complete
  cases hq : s.inflight[i]? with
  | none => simp [hq] at h
  | some q =>
    simp only [hq, Option.map_some', Option.some.injEq] at h
    simp only [h]

theorem complete_data (i : Nat) (data : Payload) (s : Page)
    (h : (s.inflight[i]?).map Request.callback = some Callback.data) :
    complete i (some data) s = dataSuccess data { s with inflight := s.inflight.eraseIdx i } := by
  unfold complete
  cases hq : s.inflight[i]? with
  | none => simp [hq] at h
  | some q =>
    simp only [hq, Option.map_some', Option.some.injEq] at h
    simp only [h]

theorem jqText_of_ne_undefined (jq : String) (w : JsVal) (hw : w ≠ JsVal.undefined)
    (old : String) : jqText jq w old = textWritten jq w := by
  cases w <;> first | exact absurd rfl hw | rfl

theorem textWritten_of_ne_null (jq : String) (w : JsVal) (hw : w ≠ JsVal.null) :
    textWritten jq w = jsString w := by
  cases w <;> first | exact absurd rfl hw | rfl

theorem step_textOfNull (root : String) (s : Page) (e : Event) :
    (step root s e).textOfNull = s.textOfNull := by
  cases e with
  | ready => rfl
  | tick => rfl
  | clickDiscover => rfl
  | clickPick c =>
    simp only [step, pickColorClick]
    cases s.displayButtons <;> rfl
  | response i r =>
    simp only [step, complete]
    cases s.inflight[i]? with
    | none => rfl
    | some q =>
      cases r with
      | none => rfl
      | some data =>
        cases hq : q.callback <;> cases data <;> simp [hq, statsSuccess, dataSuccess, getProp]

theorem run_textOfNull (root : String) (evs : List Event) :
    ∀ s : Page, (run root s evs).textOfNull = s.textOfNull := by
  induction evs with
  | nil => intro s; rfl
  | cons e evs ih =>
    intro s
    have h := ih (step root s e)
    simp only [run, List.foldl_cons] at h ⊢
    rw [h, step_textOfNull]

theorem step_requests (root : String) (s : Page) (e : Event) :
    (step root s e).requests = s.requests ++ issued root e := by
  cases e <;>
    simp [step, issued, ready, updatePieChart, initChartist, update_values, discoverClick,
      callWhois, notify, getJSON]

theorem run_requests (root : String) (evs : List Event) :
    ∀ s : Page, (run root s evs).requests = s.requests ++ issuedAll root evs := by
  induction evs with
  | nil => intro s; simp [run, issuedAll]
  | cons e evs ih =>
    intro s
    have h := ih (step root s e)
    simp only [run, List.foldl_cons] at h ⊢
    rw [h, step_requests, issuedAll, List.append_assoc]

theorem requestsTo_append (url : String) (a b : List String) :
    requestsTo url (a ++ b) = requestsTo url a + requestsTo url b := by
  simp [requestsTo, List.filter_append]

theorem requestsTo_stats_issuedAll (root : String) (evs : List Event) :
    requestsTo (root ++ "/_dash_live_stats") (issuedAll root evs) = ticks evs := by
  induction evs with
  | nil => rfl
  | cons e evs ih =>
    rw [issuedAll, requestsTo_append, ih]
    cases e <;> simp [issued, requestsTo, ticks, List.filter_cons, url_eq_iff]
    all_goals omega

theorem requestsTo_data_issuedAll (root : String) (evs : List Event) :
    requestsTo (root ++ "/_dash_live_data") (issuedAll root evs) = ticks evs := by
  induction evs with
  | nil => rfl
  | cons e evs ih =>
    rw [issuedAll, requestsTo_append, ih]
    cases e <;> simp [issued, requestsTo, ticks, List.filter_cons, url_eq_iff]
    all_goals omega

theorem requestsTo_pie_issuedAll (root : String) (evs : List Event) :
    requestsTo (root ++ "/_network_pie_chart") (issuedAll root evs) = readies evs := by
  induction evs with
  | nil => rfl
  | cons e evs ih =>
    rw [issuedAll, requestsTo_append, ih]
    cases e <;> simp [issued, requestsTo, readies, List.filter_cons, url_eq_iff]
    all_goals omega

theorem poll_issuedAll (root : String) (evs : List Event) :
    ((issuedAll root evs).filter (isPoll root)).length = 2 * ticks evs := by
  induction evs with
  | nil => rfl
  | cons e evs ih =>
    rw [issuedAll, List.filter_append, List.length_append, ih]
    cases e <;> simp [issued, isPoll, ticks, List.filter_cons, url_eq_iff]
    all_goals omega

/-! ## The poller -/

/-- C1. From the loaded page, after any sequence of events in which the
interval timer has fired `N` times (`N = ticks evs`, the other events being
clicks, the document-ready handler and responses of any outcome arriving in
any order), exactly `N` requests have been issued to `/_dash_live_stats`,
exactly `N` to `/_dash_live_data`, and the poll requests are `2 * N` in all;
in particular none has been issued while the timer has not fired. -/
theorem poller_request_count (root jq m l d t : String) (g : Option DisplayDiv)
    (evs : List Event) :
    requestsTo (root ++ "/_dash_live_stats")
        (run root (Page.loaded jq m l d t g) evs).requests = ticks evs ∧
    requestsTo (root ++ "/_dash_live_data")
        (run root (Page.loaded jq m l d t g) evs).requests = ticks evs ∧
    ((run root (Page.loaded jq m l d t g) evs).requests.filter (isPoll root)).length
        = 2 * ticks evs := by
  rw [run_requests]
  simp only [Page.loaded, List.nil_append]
  exact ⟨requestsTo_stats_issuedAll root evs, requestsTo_data_issuedAll root evs,
    poll_issuedAll root evs⟩

theorem complete_inflight (i : Nat) (r : Option Payload) (s : Page) :
    (complete i r s).inflight = s.inflight.eraseIdx i := by
  unfold complete
  cases hq : s.inflight[i]? with
  | none =>
    have hlen : s.inflight.length ≤ i := by simpa using hq
    simp [List.eraseIdx_of_length_le hlen]
  | some q =>
    cases r with
    | none => rfl
    | some data =>
      cases hc : q.callback <;> cases data <;> simp [hc, statsSuccess, dataSuccess, getProp]

theorem step_inflight_known (root : String) (s : Page) (e : Event)
    (h : ∀ q ∈ s.inflight, q ∈ knownRequests root) :
    ∀ q ∈ (step root s e).inflight, q ∈ knownRequests root := by
  intro q hq
  cases e with
  | ready =>
    simp only [step, ready, updatePieChart, initChartist, notify, getJSON, List.mem_append,
      List.mem_singleton] at hq
    rcases hq with hq | hq
    · exact h q hq
    · simp [hq, knownRequests]
  | tick =>
    simp only [step, update_values, getJSON, List.mem_append, List.mem_singleton] at hq
    rcases hq with (hq | hq) | hq
    · exact h q hq
    · simp [hq, knownRequests]
    · simp [hq, knownRequests]
  | clickDiscover =>
    simp only [step, discoverClick, callWhois, notify, getJSON, List.mem_append,
      List.mem_singleton] at hq
    rcases hq with hq | hq
    · exact h q hq
    · simp [hq, knownRequests]
  | clickPick c =>
    simp only [step, pickColorClick_inflight] at hq
    exact h q hq
  | response i r =>
    simp only [step, complete_inflight] at hq
    exact h q (List.mem_of_mem_eraseIdx hq)

theorem run_inflight_known (root : String) (evs : List Event) :
    ∀ s : Page, (∀ q ∈ s.inflight, q ∈ knownRequests root) →
      ∀ q ∈ (run root s evs).inflight, q ∈ knownRequests root := by
  induction evs with
  | nil => intro s h; simpa [run] using h
  | cons e evs ih =>
    intro s h
    have h2 := ih (step root s e) (step_inflight_known root s e h)
    simpa [run] using h2

theorem callback_of_url (root jq m l d t : String) (g : Option DisplayDiv)
    (evs : List Event) (i : Nat) (path : String)
    (h : ((run root (Page.loaded jq m l d t g) evs).inflight[i]?).map Request.url
      = some (root ++ path)) :
    (path = "/_dash_live_stats" →
      ((run root (Page.loaded jq m l d t g) evs).inflight[i]?).map Request.callback
        = some Callback.stats) ∧
    (path = "/_dash_live_data" →
      ((run root (Page.loaded jq m l d t g) evs).inflight[i]?).map Request.callback
        = some Callback.data) := by
  cases hq : (run root (Page.loaded jq m l d t g) evs).inflight[i]? with
  | none => simp [hq] at h
  | some q =>
    simp only [hq, Option.map_some', Option.some.injEq] at h
    have hk := run_inflight_known root evs (Page.loaded jq m l d t g)
      (by simp [Page.loaded]) q (List.getElem?_mem hq)
    simp only [knownRequests, List.mem_cons, List.mem_singleton, List.not_mem_nil,
      or_false] at hk
    rcases hk with rfl | rfl | rfl | rfl <;>
      simp only [url_eq_iff] at h <;>
      constructor <;> intro hp <;> subst hp <;> first | rfl | exact absurd h (by decide)

/-- C2. From the loaded page, after any sequence of events (whichever tick
issued the request, whatever arrived or is still in flight), when the
successful response of a request to `/_dash_live_stats` arrives with
properties `print_mstpnetworks = v` and `timestamp = w`, then right after its
callback the text of `#mstpnetworks` is the string rendering of `v` and the
text of `#lastwhoisupdate` that of `w`; likewise the successful response of a
request to `/_dash_live_data` sets the text of `#devices` and `#trends` from
`number_of_devices` and `number_of_registered_trends`.  The rendering is
`String(v)` for every value but `null`, for which it is what the jQuery release
of the page writes. -/
theorem live_display_postcondition (root jq m l d t : String) (g : Option DisplayDiv)
    (evs : List Event) (i : Nat) (fs : List (String × JsVal)) (v w : JsVal) :
    (((run root (Page.loaded jq m l d t g) evs).inflight[i]?).map Request.url
        = some (root ++ "/_dash_live_stats") →
      fs.lookup "print_mstpnetworks" = some v → v ≠ JsVal.undefined →
      fs.lookup "timestamp" = some w → w ≠ JsVal.undefined →
      ((step root (run root (Page.loaded jq m l d t g) evs)
          (.response i (some (.obj fs)))).mstpnetworks = textWritten jq v ∧
       (step root (run root (Page.loaded jq m l d t g) evs)
          (.response i (some (.obj fs)))).lastwhoisupdate = textWritten jq w) ∧
      (v ≠ JsVal.null → textWritten jq v = jsString v) ∧
      (w ≠ JsVal.null → textWritten jq w = jsString w)) ∧
    (((run root (Page.loaded jq m l d t g) evs).inflight[i]?).map Request.url
        = some (root ++ "/_dash_live_data") →
      fs.lookup "number_of_devices" = some v → v ≠ JsVal.undefined →
      fs.lookup "number_of_registered_trends" = some w → w ≠ JsVal.undefined →
      ((step root (run root (Page.loaded jq m l d t g) evs)
          (.response i (some (.obj fs)))).devices = textWritten jq v ∧
       (step root (run root (Page.loaded jq m l d t g) evs)
          (.response i (some (.obj fs)))).trends = textWritten jq w) ∧
      (v ≠ JsVal.null → textWritten jq v = jsString v) ∧
      (w ≠ JsVal.null → textWritten jq w = jsString w)) := by
  have hjq : (run root (Page.loaded jq m l d t g) evs).textOfNull = jq := by
    rw [run_textOfNull]
    rfl
  constructor
  · intro hi hv hv2 hw hw2
    have hci := (callback_of_url root jq m l d t g evs i _ hi).1 rfl
    refine ⟨?_, textWritten_of_ne_null jq v, textWritten_of_ne_null jq w⟩
    simp only [step, complete_stats i _ _ hci]
    simp [statsSuccess, getProp, hv, hw, jqText_of_ne_undefined, hv2, hw2, hjq]
  · intro hi hv hv2 hw hw2
    have hci := (callback_of_url root jq m l d t g evs i _ hi).2 rfl
    refine ⟨?_, textWritten_of_ne_null jq v, textWritten_of_ne_null jq w⟩
    simp only [step, complete_data i _ _ hci]
    simp [dataSuccess, getProp, hv, hw, jqText_of_ne_undefined, hv2, hw2, hjq]

/-- The stats response of the spec's example, arriving when the data response
of the same tick has already arrived and only the stats request is in flight;
and a data response arriving after the stats request of its tick has failed.
The texts are `"3"`, `"2024-01-01T00:00:00Z"`, `"12"` and `"1.5"`. -/
theorem live_display_witness :
    ((((run "" (Page.loaded "" "-" "-" "-" "-" none)
          [.tick, .response 1 (some (.obj [("number_of_devices", .int ⟨12, by decide⟩)]))]
          ).inflight[0]?).map Request.url = some ("" ++ "/_dash_live_stats")) ∧
     ((step "" (run "" (Page.loaded "" "-" "-" "-" "-" none)
          [.tick, .response 1 (some (.obj [("number_of_devices", .int ⟨12, by decide⟩)]))])
        (.response 0 (some (.obj [("print_mstpnetworks", .int ⟨3, by decide⟩),
          ("timestamp", .str "2024-01-01T00:00:00Z")])))).mstpnetworks = "3" ∧
      (step "" (run "" (Page.loaded "" "-" "-" "-" "-" none)
          [.tick, .response 1 (some (.obj [("number_of_devices", .int ⟨12, by decide⟩)]))])
        (.response 0 (some (.obj [("print_mstpnetworks", .int ⟨3, by decide⟩),
          ("timestamp", .str "2024-01-01T00:00:00Z")])))).lastwhoisupdate
        = "2024-01-01T00:00:00Z")) ∧
    ((((run "" (Page.loaded "" "-" "-" "-" "-" none) [.tick, .response 0 none]
          ).inflight[0]?).map Request.url = some ("" ++ "/_dash_live_data")) ∧
     ((step "" (run "" (Page.loaded "" "-" "-" "-" "-" none) [.tick, .response 0 none])
        (.response 0 (some (.obj [("number_of_devices", .int ⟨12, by decide⟩),
          ("number_of_registered_trends", .real "1.5")])))).devices = "12" ∧
      (step "" (run "" (Page.loaded "" "-" "-" "-" "-" none) [.tick, .response 0 none])
        (.response 0 (some (.obj [("number_of_devices", .int ⟨12, by decide⟩),
          ("number_of_registered_trends", .real "1.5")])))).trends = "1.5")) :=
  ⟨⟨by decide,
    ((live_display_postcondition "" "" "-" "-" "-" "-" none
        [.tick, .response 1 (some (.obj [("number_of_devices", .int ⟨12, by decide⟩)]))] 0
        [("print_mstpnetworks", .int ⟨3, by decide⟩), ("timestamp", .str "2024-01-01T00:00:00Z")]
        (.int ⟨3, by decide⟩) (.str "2024-01-01T00:00:00Z")).1
      (by decide) rfl (fun h => JsVal.noConfusion h) rfl (fun h => JsVal.noConfusion h)).1⟩,
   ⟨by decide,
    ((live_display_postcondition "" "" "-" "-" "-" "-" none [.tick, .response 0 none] 0
        [("number_of_devices", .int ⟨12, by decide⟩),
          ("number_of_registered_trends", .real "1.5")]
        (.int ⟨12, by decide⟩) (.real "1.5")).2
      (by decide) rfl (fun h => JsVal.noConfusion h) rfl (fun h => JsVal.noConfusion h)).1⟩⟩

/-- C3. When the response of any request in flight is a failure, the texts of
`#mstpnetworks`, `#lastwhoisupdate`, `#devices` and `#trends` are what they
were before it, no uncaught error is raised, and `update_values` itself raises
none and writes none of the four texts. -/
theorem failed_poll_changes_nothing (root : String) (s : Page) (i : Nat) :
    ((step root s (.response i none)).mstpnetworks = s.mstpnetworks ∧
     (step root s (.response i none)).lastwhoisupdate = s.lastwhoisupdate ∧
     (step root s (.response i none)).devices = s.devices ∧
     (step root s (.response i none)).trends = s.trends ∧
     (step root s (.response i none)).uncaught = s.uncaught) ∧
    ((step root s .tick).uncaught = s.uncaught ∧
     (step root s .tick).mstpnetworks = s.mstpnetworks ∧
     (step root s .tick).lastwhoisupdate = s.lastwhoisupdate ∧
     (step root s .tick).devices = s.devices ∧
     (step root s .tick).trends = s.trends) := by
  constructor
  · simp only [step, complete]
    cases s.inflight[i]? <;> simp
  · simp [step, update_values, getJSON]

/-- C4. From the loaded page, after any sequence of events, the arrival of a
successful response of a request to `/_dash_live_stats` leaves the text of
`#devices` and `#trends` as it was, and the arrival of a successful response
of a request to `/_dash_live_data` leaves the text of `#mstpnetworks` and
`#lastwhoisupdate` as it was, whatever body the response carries and whatever
else is in flight. -/
theorem success_updates_only_own_fields (root jq m l d t : String) (g : Option DisplayDiv)
    (evs : List Event) (i : Nat) (data : Payload) :
    (((run root (Page.loaded jq m l d t g) evs).inflight[i]?).map Request.url
        = some (root ++ "/_dash_live_stats") →
      (step root (run root (Page.loaded jq m l d t g) evs) (.response i (some data))).devices
        = (run root (Page.loaded jq m l d t g) evs).devices ∧
      (step root (run root (Page.loaded jq m l d t g) evs) (.response i (some data))).trends
        = (run root (Page.loaded jq m l d t g) evs).trends) ∧
    (((run root (Page.loaded jq m l d t g) evs).inflight[i]?).map Request.url
        = some (root ++ "/_dash_live_data") →
      (step root (run root (Page.loaded jq m l d t g) evs)
          (.response i (some data))).mstpnetworks
        = (run root (Page.loaded jq m l d t g) evs).mstpnetworks ∧
      (step root (run root (Page.loaded jq m l d t g) evs)
          (.response i (some data))).lastwhoisupdate
        = (run root (Page.loaded jq m l d t g) evs).lastwhoisupdate) := by
  constructor
  · intro hi
    have hci := (callback_of_url root jq m l d t g evs i _ hi).1 rfl
    simp only [step, complete_stats i _ _ hci]
    cases data <;> simp [statsSuccess, getProp]
  · intro hi
    have hci := (callback_of_url root jq m l d t g evs i _ hi).2 rfl
    simp only [step, complete_data i _ _ hci]
    cases data <;> simp [dataSuccess, getProp]

/-- A stats response arriving when only the stats request is in flight (the
data response of the same tick has arrived before it), and a data response,
here with body `null`, arriving when only the data request is in flight. -/
theorem success_updates_only_own_fields_witness :
    ((((run "" (Page.loaded "" "a" "b" "c" "d" none)
          [.tick, .response 1 (some (.obj [("number_of_devices", .int ⟨7, by decide⟩)]))]
          ).inflight[0]?).map Request.url = some ("" ++ "/_dash_live_stats")) ∧
     ((step "" (run "" (Page.loaded "" "a" "b" "c" "d" none)
          [.tick, .response 1 (some (.obj [("number_of_devices", .int ⟨7, by decide⟩)]))])
        (.response 0 (some (.obj [("print_mstpnetworks", .int ⟨3, by decide⟩)])))).devices = "7" ∧
      (step "" (run "" (Page.loaded "" "a" "b" "c" "d" none)
          [.tick, .response 1 (some (.obj [("number_of_devices", .int ⟨7, by decide⟩)]))])
        (.response 0 (some (.obj [("print_mstpnetworks", .int ⟨3, by decide⟩)])))).trends = "d")) ∧
    ((((run "" (Page.loaded "" "a" "b" "c" "d" none) [.tick, .response 0 none]
          ).inflight[0]?).map Request.url = some ("" ++ "/_dash_live_data")) ∧
     ((step "" (run "" (Page.loaded "" "a" "b" "c" "d" none) [.tick, .response 0 none])
        (.response 0 (some .null))).mstpnetworks = "a" ∧
      (step "" (run "" (Page.loaded "" "a" "b" "c" "d" none) [.tick, .response 0 none])
        (.response 0 (some .null))).lastwhoisupdate = "b")) :=
  ⟨⟨by decide,
    (success_updates_only_own_fields "" "" "a" "b" "c" "d" none
        [.tick, .response 1 (some (.obj [("number_of_devices", .int ⟨7, by decide⟩)]))] 0
        (.obj [("print_mstpnetworks", .int ⟨3, by decide⟩)])).1 (by decide)⟩,
   ⟨by decide,
    (success_updates_only_own_fields "" "" "a" "b" "c" "d" none [.tick, .response 0 none] 0
        .null).2 (by decide)⟩⟩

/-- C5. One click on `#discover`, in any state of the page, issues exactly one
request, to `/_whois`, and shows exactly one notification, with message
"Discovering devices" and timer 1000, in the same run of the handler, while
the request is still in flight; it writes no display element, constructs no
chart and leaves the palette group alone, and the later arrival of the
response, success or failure, shows no further notification and writes no
display element. -/
theorem discover_click_effect (root : String) (s : Page) (result : Option Payload) :
    ((step root s .clickDiscover).requests = s.requests ++ [root ++ "/_whois"] ∧
     (step root s .clickDiscover).inflight
        = s.inflight ++ [⟨root ++ "/_whois", Callback.ignore⟩] ∧
     (step root s .clickDiscover).notifications
        = s.notifications ++ [⟨"ti-world", "Discovering devices", "success", 1000⟩]) ∧
    ((step root s .clickDiscover).mstpnetworks = s.mstpnetworks ∧
     (step root s .clickDiscover).lastwhoisupdate = s.lastwhoisupdate ∧
     (step root s .clickDiscover).devices = s.devices ∧
     (step root s .clickDiscover).trends = s.trends ∧
     (step root s .clickDiscover).charts = s.charts ∧
     (step root s .clickDiscover).displayButtons = s.displayButtons ∧
     (step root s .clickDiscover).uncaught = s.uncaught) ∧
    (step root (step root s .clickDiscover) (.response s.inflight.length result)
        = { step root s .clickDiscover with inflight := s.inflight }) := by
  refine ⟨?_, ?_, ?_⟩
  · simp [step, discoverClick, callWhois, notify, getJSON, discoverNote]
  · simp [step, discoverClick, callWhois, notify, getJSON]
  · cases result <;>
      simp [step, complete, discoverClick, callWhois, notify, getJSON, List.getElem?_append_right,
        List.eraseIdx_append_of_length_le]

/-! ## The palette switcher -/

theorem onMatched_twice (f g : List String → List String) (p : List String → Bool)
    (es : List (List String)) :
    onMatched g (es.map p) (onMatched f (es.map p) es)
      = es.map (fun e => if p e then g (f e) else e) := by
  induction es with
  | nil => rfl
  | cons e es ih =>
    simp only [List.map_cons, onMatched, ih]
    cases p e <;> simp

theorem pickColorClick_some (c : Option String) (s : Page) (g : DisplayDiv)
    (hg : s.displayButtons = some g) :
    pickColorClick c s =
      { s with displayButtons := some ⟨jqAttr c g.dataClass, g.descendants.map (repaint g.dataClass c)⟩ } := by
  unfold pickColorClick
  simp only [hg, Option.some_bind, onMatched_twice]
  rfl

theorem pickColorClick_none (c : Option String) (s : Page) (hg : s.displayButtons = none) :
    pickColorClick c s = s := by
  unfold pickColorClick
  simp only [hg]

theorem mem_removeClass (v : Option String) (cls : List String) (t : String) :
    t ∈ removeClass v cls ↔ t ∈ cls ∧ t ∉ classesToArray v := by
  simp [removeClass, List.mem_filter]

theorem mem_addClass (v : Option String) (cls : List String) (t : String) :
    t ∈ addClass v cls ↔ t ∈ cls ∨ t ∈ classesToArray v := by
  unfold addClass
  generalize classesToArray v = toks
  induction toks generalizing cls with
  | nil => simp
  | cons a toks ih =>
    rw [List.foldl_cons, ih]
    by_cases h : cls.contains a = true
    · have ha : a ∈ cls := by simpa using h
      simp only [h, if_true, List.mem_cons]
      constructor
      · rintro (h1 | h1)
        · exact Or.inl h1
        · exact Or.inr (Or.inr h1)
      · rintro (h1 | h1 | h1)
        · exact Or.inl h1
        · exact Or.inl (h1 ▸ ha)
        · exact Or.inr h1
    · simp only [h, List.mem_append, List.mem_singleton, List.mem_cons]
      simp only [Bool.false_eq_true, if_false, List.mem_append, List.mem_singleton]
      tauto

theorem mem_repaint_of_btn (o c : Option String) (e : List String) (t : String)
    (h : "btn" ∈ e) :
    t ∈ repaint o c e ↔ (t ∈ e ∧ t ∉ classesToArray o) ∨ t ∈ classesToArray c := by
  simp [repaint, h, mem_addClass, mem_removeClass]

theorem repaint_of_not_btn (o c : Option String) (e : List String) (h : "btn" ∉ e) :
    repaint o c e = e := by
  simp [repaint, h]

theorem repaint_repaint_same (o : Option String) (c : String) (e : List String) (t : String) :
    t ∈ repaint (some c) (some c) (repaint o (some c) e) ↔ t ∈ repaint o (some c) e := by
  by_cases h : "btn" ∈ e
  · by_cases h2 : "btn" ∈ repaint o (some c) e
    · rw [mem_repaint_of_btn _ _ _ _ h2, mem_repaint_of_btn _ _ _ _ h]
      tauto
    · rw [repaint_of_not_btn _ _ _ h2]
  · rw [repaint_of_not_btn o _ e h, repaint_of_not_btn _ _ e h]

theorem sameClassSets_map (f g : List String → List String)
    (h : ∀ e t, t ∈ f e ↔ t ∈ g e) (es : List (List String)) :
    SameClassSets (es.map f) (es.map g) := by
  induction es with
  | nil => trivial
  | cons e es ih =>
    exact ⟨⟨fun t ht => (h e t).1 ht, fun t ht => (h e t).2 ht⟩, ih⟩

/-- C6. For every state of the page and every control with a `new-class`
attribute `c`, running the click handler of `initPickColor` twice with that
control leaves the `#display-buttons` group in the same state as running it
once (same `data-class`, same class set on every descendant, hence on every
`.btn` member), and nothing else on the page differs either. -/
theorem pickColor_idempotent (c : String) (s : Page) :
    SameGroupState (pickColorClick (some c) (pickColorClick (some c) s)).displayButtons
      (pickColorClick (some c) s).displayButtons ∧
    { pickColorClick (some c) (pickColorClick (some c) s) with displayButtons := none }
      = { pickColorClick (some c) s with displayButtons := none } := by
  cases hg : s.displayButtons with
  | none =>
    rw [pickColorClick_none _ s hg, pickColorClick_none _ s hg, hg]
    exact ⟨trivial, rfl⟩
  | some g =>
    rw [pickColorClick_some _ s g hg]
    rw [pickColorClick_some (some c) _ ⟨some c, g.descendants.map (repaint g.dataClass (some c))⟩ rfl]
    refine ⟨⟨rfl, ?_⟩, rfl⟩
    rw [List.map_map]
    exact sameClassSets_map _ _ (fun e t => repaint_repaint_same g.dataClass c e t) g.descendants

theorem splitTokens_token (cs : List Char) :
    ∀ cur : List Char, (∀ ch ∈ cs, isHtmlSpace ch = false) → cur.reverse ++ cs ≠ [] →
      splitTokens cs cur = [String.mk (cur.reverse ++ cs)] := by
  induction cs with
  | nil =>
    intro cur _ hne
    have hcur : cur ≠ [] := by
      intro h
      exact hne (by simp [h])
    simp [splitTokens, hcur]
  | cons c cs ih =>
    intro cur hall _
    have hc : isHtmlSpace c = false := hall c (List.mem_cons_self c cs)
    have h := ih (c :: cur) (fun ch hch => hall ch (List.mem_cons_of_mem c hch)) (by simp)
    simp only [splitTokens, hc, Bool.false_eq_true, if_false, h]
    simp

theorem classesToArray_token (c : String) (hc : IsClassToken c) :
    classesToArray (some c) = [c] := by
  have h := splitTokens_token c.data [] hc.2 (by simpa using hc.1)
  simpa [classesToArray] using h

theorem mem_btnMembers (s : Page) (e : List String) :
    e ∈ btnMembers s ↔ ∃ g, s.displayButtons = some g ∧ e ∈ g.descendants ∧ "btn" ∈ e := by
  unfold btnMembers
  cases s.displayButtons with
  | none => simp
  | some g => simp [List.mem_filter]

theorem btnMembers_pickColorClick (c : Option String) (s : Page) (g : DisplayDiv)
    (hg : s.displayButtons = some g) (e2 : List String)
    (h : e2 ∈ btnMembers (pickColorClick c s)) :
    ∃ e, e ∈ btnMembers s ∧ e2 = repaint g.dataClass c e := by
  rw [pickColorClick_some c s g hg, mem_btnMembers] at h
  obtain ⟨g2, hg2, hmem, hbtn⟩ := h
  simp only [Option.some.injEq] at hg2
  subst hg2
  simp only [List.mem_map] at hmem
  obtain ⟨e, he, rfl⟩ := hmem
  refine ⟨e, ?_, rfl⟩
  rw [mem_btnMembers]
  refine ⟨g, hg, he, ?_⟩
  by_contra hn
  rw [repaint_of_not_btn _ _ _ hn] at hbtn
  exact hn hbtn

theorem pickColorClick_establishes (cands : List String) (c : String) (s : Page)
    (g : DisplayDiv) (hg : s.displayButtons = some g)
    (htok : ∀ k ∈ cands, IsClassToken k) (hc : c ∈ cands)
    (h0 : ∀ e ∈ btnMembers s, ∀ k ∈ cands, k ∈ e → g.dataClass = some k) :
    ∀ e ∈ btnMembers (pickColorClick (some c) s), c ∈ e ∧ ∀ k ∈ cands, k ≠ c → k ∉ e := by
  intro e2 he2
  obtain ⟨e, he, rfl⟩ := btnMembers_pickColorClick (some c) s g hg e2 he2
  have hbtn : "btn" ∈ e := by
    rw [mem_btnMembers] at he
    obtain ⟨_, _, _, hb⟩ := he
    exact hb
  constructor
  · rw [mem_repaint_of_btn _ _ _ _ hbtn, classesToArray_token c (htok c hc)]
    exact Or.inr (List.mem_singleton_self c)
  · intro k hk hkc hmem
    rw [mem_repaint_of_btn _ _ _ _ hbtn, classesToArray_token c (htok c hc)] at hmem
    rcases hmem with ⟨hke, hnot⟩ | hkc2
    · have hd := h0 e he k hk hke
      rw [hd, classesToArray_token k (htok k hk)] at hnot
      exact hnot (List.mem_singleton_self k)
    · exact hkc (List.mem_singleton.1 hkc2)

theorem run_paletteClicks_invariant (root : String) (cands : List String)
    (htok : ∀ k ∈ cands, IsClassToken k) (clicks : List String) :
    ∀ s : Page, (∀ c ∈ clicks, c ∈ cands) →
      (∃ g, s.displayButtons = some g ∧
        ∀ e ∈ btnMembers s, ∀ k ∈ cands, k ∈ e → g.dataClass = some k) →
      ∃ g, (run root s (paletteClicks clicks)).displayButtons = some g ∧
        ∀ e ∈ btnMembers (run root s (paletteClicks clicks)), ∀ k ∈ cands, k ∈ e →
          g.dataClass = some k := by
  induction clicks with
  | nil =>
    intro s _ h
    simpa [run, paletteClicks] using h
  | cons c clicks ih =>
    intro s hcl h
    obtain ⟨g, hg, h0⟩ := h
    have hc : c ∈ cands := hcl c (List.mem_cons_self c clicks)
    have hest := pickColorClick_establishes cands c s g hg htok hc h0
    have hstep : run root s (paletteClicks (c :: clicks))
        = run root (pickColorClick (some c) s) (paletteClicks clicks) := by
      simp [run, paletteClicks, step]
    rw [hstep]
    apply ih (pickColorClick (some c) s) (fun x hx => hcl x (List.mem_cons_of_mem c hx))
    refine ⟨⟨some c, g.descendants.map (repaint g.dataClass (some c))⟩, ?_, ?_⟩
    · rw [pickColorClick_some _ s g hg]
      rfl
    · intro e he k hk hke
      by_contra hne
      have hkc : k ≠ c := fun h => hne (by rw [h])
      exact (hest e he).2 k hk hkc hke

/-- C7, as stated, fails.  First input: `data-class` is `btn-info`, the one
member carries `btn` and `btn-info`, and the clicked control has
`new-class="btn-info btn-fill"`; after the handler the member carries `btn`,
`btn-info` and `btn-fill`, so it carries no class equal to the `new-class`
value and it still carries the old class although the two values differ.
Second input: `data-class` is `btn-info btn-fill` and the control has
`new-class="btn-danger"`; the member loses `btn-fill`, a class that is neither
the `data-class` value nor the `new-class` value. -/
theorem pickColor_postcondition_counterexample :
    (btnMembers (pickColorClick (some "btn-info btn-fill")
        (Page.loaded "" "" "" "" "" (some ⟨some "btn-info", [["btn", "btn-info"]]⟩)))
      = [["btn", "btn-info", "btn-fill"]] ∧
     ¬ (∀ e2 ∈ btnMembers (pickColorClick (some "btn-info btn-fill")
          (Page.loaded "" "" "" "" "" (some ⟨some "btn-info", [["btn", "btn-info"]]⟩))),
          "btn-info btn-fill" ∈ e2) ∧
     ¬ ("btn-info" ≠ "btn-info btn-fill" →
        ∀ e2 ∈ btnMembers (pickColorClick (some "btn-info btn-fill")
          (Page.loaded "" "" "" "" "" (some ⟨some "btn-info", [["btn", "btn-info"]]⟩))),
          "btn-info" ∉ e2)) ∧
    (btnMembers (pickColorClick (some "btn-danger") (Page.loaded "" "" "" "" ""
        (some ⟨some "btn-info btn-fill", [["btn", "btn-info", "btn-fill"]]⟩)))
      = [["btn", "btn-danger"]] ∧
     ¬ (∀ e ∈ btnMembers (Page.loaded "" "" "" "" ""
          (some ⟨some "btn-info btn-fill", [["btn", "btn-info", "btn-fill"]]⟩)),
        ∀ e2 ∈ btnMembers (pickColorClick (some "btn-danger") (Page.loaded "" "" "" "" ""
          (some ⟨some "btn-info btn-fill", [["btn", "btn-info", "btn-fill"]]⟩))),
        ∀ t : String, t ≠ "btn-info btn-fill" → t ≠ "btn-danger" → (t ∈ e2 ↔ t ∈ e))) := by
  refine ⟨by decide, by decide, ?_⟩
  intro h
  have h2 := h ["btn", "btn-info", "btn-fill"] (by decide) ["btn", "btn-danger"] (by decide)
    "btn-fill" (by decide) (by decide)
  revert h2
  decide

/-- C7, amended.  When `#display-buttons` exists with `data-class` `o`, the
clicked control has `new-class` `c`, and `c` and `o` are each a single class
name, then after the handler the `data-class` attribute is `c`, the group has
the same descendants in the same order, every descendant that matched `.btn`
carries `c`, does not carry `o` unless `o = c`, and carries a class other than
`o` and `c` exactly when it did before; a descendant that did not match `.btn`
is unchanged.  In particular every `.btn` member after the handler carries `c`
and, when `o` differs from `c`, not `o`. -/
theorem pickColor_postcondition (c o : String) (s : Page) (g : DisplayDiv)
    (hc : IsClassToken c) (ho : IsClassToken o)
    (hg : s.displayButtons = some g) (hd : g.dataClass = some o) :
    (∃ g2, (pickColorClick (some c) s).displayButtons = some g2 ∧
      g2.dataClass = some c ∧
      g2.descendants.length = g.descendants.length ∧
      ∀ (i : Nat) (e e2 : List String),
        g.descendants[i]? = some e → g2.descendants[i]? = some e2 →
        ("btn" ∈ e → c ∈ e2 ∧ (o ≠ c → o ∉ e2) ∧
          ∀ t, t ≠ o → t ≠ c → (t ∈ e2 ↔ t ∈ e)) ∧
        ("btn" ∉ e → e2 = e)) ∧
    (∀ e2 ∈ btnMembers (pickColorClick (some c) s), c ∈ e2 ∧ (o ≠ c → o ∉ e2)) := by
  have hpost : ∀ e : List String, "btn" ∈ e →
      c ∈ repaint (some o) (some c) e ∧ (o ≠ c → o ∉ repaint (some o) (some c) e) ∧
        ∀ t, t ≠ o → t ≠ c → (t ∈ repaint (some o) (some c) e ↔ t ∈ e) := by
    intro e hbtn
    refine ⟨?_, ?_, ?_⟩
    · rw [mem_repaint_of_btn _ _ _ _ hbtn, classesToArray_token c hc]
      exact Or.inr (List.mem_singleton_self c)
    · intro hoc
      rw [mem_repaint_of_btn _ _ _ _ hbtn, classesToArray_token c hc, classesToArray_token o ho]
      simp [hoc]
    · intro t hto htc
      rw [mem_repaint_of_btn _ _ _ _ hbtn, classesToArray_token c hc, classesToArray_token o ho]
      simp [hto, htc]
  constructor
  · refine ⟨⟨some c, g.descendants.map (repaint (some o) (some c))⟩, ?_, rfl, ?_, ?_⟩
    · rw [pickColorClick_some _ s g hg, hd]
      rfl
    · simp
    · intro i e e2 he he2
      simp only [List.getElem?_map, he, Option.map_some', Option.some.injEq] at he2
      subst he2
      exact ⟨hpost e, fun hn => repaint_of_not_btn _ _ _ hn⟩
  · intro e2 he2
    obtain ⟨e, he, rfl⟩ := btnMembers_pickColorClick (some c) s g hg e2 he2
    rw [hd]
    have hbtn : "btn" ∈ e := by
      rw [mem_btnMembers] at he
      obtain ⟨_, _, _, hb⟩ := he
      exact hb
    exact ⟨(hpost e hbtn).1, (hpost e hbtn).2.1⟩

/-- A click on the control `btn-danger` while the group records `btn-info`:
the member carries `btn-danger` afterwards and no longer `btn-info`. -/
theorem pickColor_postcondition_witness :
    IsClassToken "btn-danger" ∧ IsClassToken "btn-info" ∧
    (∀ e2 ∈ btnMembers (pickColorClick (some "btn-danger")
        (Page.loaded "" "" "" "" "" (some ⟨some "btn-info", [["btn", "btn-info"], ["label"]]⟩))),
      "btn-danger" ∈ e2 ∧ ("btn-info" ≠ "btn-danger" → "btn-info" ∉ e2)) :=
  ⟨by decide, by decide,
   (pickColor_postcondition "btn-danger" "btn-info"
      (Page.loaded "" "" "" "" "" (some ⟨some "btn-info", [["btn", "btn-info"], ["label"]]⟩))
      ⟨some "btn-info", [["btn", "btn-info"], ["label"]]⟩
      (by decide) (by decide) rfl rfl).2⟩

/-- C10. Assume `#display-buttons` exists, every candidate class (the
`new-class` value of a palette control) is a single class name, and initially
a `.btn` member carries a candidate class only if `data-class` records that
class.  Then after any sequence of one or more clicks on palette controls the
`data-class` attribute records the `new-class` of the last clicked control,
every `.btn` member carries that class, and no `.btn` member carries any other
candidate class. -/
theorem single_palette_class_invariant (root : String) (cands clicks : List String)
    (s : Page) (g : DisplayDiv)
    (hg : s.displayButtons = some g)
    (htok : ∀ k ∈ cands, IsClassToken k)
    (h0 : ∀ e ∈ btnMembers s, ∀ k ∈ cands, k ∈ e → g.dataClass = some k)
    (hne : clicks ≠ [])
    (hcl : ∀ c ∈ clicks, c ∈ cands) :
    (∃ g2, (run root s (paletteClicks clicks)).displayButtons = some g2 ∧
      g2.dataClass = some (clicks.getLast hne)) ∧
    (∀ e ∈ btnMembers (run root s (paletteClicks clicks)),
      clicks.getLast hne ∈ e ∧ ∀ k ∈ cands, k ≠ clicks.getLast hne → k ∉ e) := by
  have hsplit : clicks.dropLast ++ [clicks.getLast hne] = clicks :=
    List.dropLast_append_getLast hne
  have hrun : run root s (paletteClicks clicks)
      = pickColorClick (some (clicks.getLast hne))
          (run root s (paletteClicks clicks.dropLast)) := by
    conv_lhs => rw [← hsplit]
    simp [run, paletteClicks, List.foldl_append, step]
  rw [hrun]
  obtain ⟨g1, hg1, h1⟩ := run_paletteClicks_invariant root cands htok clicks.dropLast s
    (fun c hc => hcl c (List.mem_of_mem_dropLast hc)) ⟨g, hg, h0⟩
  have hb : clicks.getLast hne ∈ cands := hcl _ (List.getLast_mem hne)
  constructor
  · refine ⟨⟨some (clicks.getLast hne),
      g1.descendants.map (repaint g1.dataClass (some (clicks.getLast hne)))⟩, ?_, rfl⟩
    rw [pickColorClick_some _ _ g1 hg1]
    rfl
  · exact pickColorClick_establishes cands _ _ g1 hg1 htok hb h1

/-- Three clicks, on `btn-danger`, `btn-info` and `btn-danger` again, from a
group that records `btn-default`. -/
theorem single_palette_class_invariant_witness :
    (∀ k ∈ ["btn-info", "btn-danger"], IsClassToken k) ∧
    (∀ e ∈ btnMembers (Page.loaded "" "" "" "" ""
        (some ⟨some "btn-default", [["btn", "btn-default"], ["label", "btn-info"]]⟩)),
      ∀ k ∈ ["btn-info", "btn-danger"], k ∈ e → some "btn-default" = some k) ∧
    (∀ e ∈ btnMembers (run "" (Page.loaded "" "" "" "" ""
        (some ⟨some "btn-default", [["btn", "btn-default"], ["label", "btn-info"]]⟩))
        (paletteClicks ["btn-danger", "btn-info", "btn-danger"])),
      "btn-danger" ∈ e ∧ ∀ k ∈ ["btn-info", "btn-danger"], k ≠ "btn-danger" → k ∉ e) :=
  ⟨by decide, by decide,
   (single_palette_class_invariant "" ["btn-info", "btn-danger"]
      ["btn-danger", "btn-info", "btn-danger"]
      (Page.loaded "" "" "" "" ""
        (some ⟨some "btn-default", [["btn", "btn-default"], ["label", "btn-info"]]⟩))
      ⟨some "btn-default", [["btn", "btn-default"], ["label", "btn-info"]]⟩
      rfl (by decide) (by decide) (by decide) (by decide)).2⟩

/-! ## The chart loader -/

theorem step_charts_length (root : String) (s : Page) (e : Event) :
    (step root s e).charts.length = s.charts.length + (if e = Event.ready then 1 else 0) := by
  cases e with
  | ready => simp [step, ready, updatePieChart, initChartist, notify, getJSON]
  | tick => simp [step, update_values, getJSON]
  | clickDiscover => simp [step, discoverClick, callWhois, notify, getJSON]
  | clickPick c =>
    simp only [step, reduceCtorEq, if_false, Nat.add_zero]
    cases hg : s.displayButtons with
    | none => rw [pickColorClick_none _ s hg]
    | some g => rw [pickColorClick_some _ s g hg]
  | response i r =>
    simp only [step, complete, reduceCtorEq, if_false, Nat.add_zero]
    cases s.inflight[i]? with
    | none => rfl
    | some q =>
      cases r with
      | none => rfl
      | some data =>
        cases hq : q.callback <;> cases data <;> simp [hq, statsSuccess, dataSuccess, getProp]

theorem run_charts_length (root : String) (evs : List Event) :
    ∀ s : Page, (run root s evs).charts.length = s.charts.length + readies evs := by
  induction evs with
  | nil => intro s; simp [run, readies]
  | cons e evs ih =>
    intro s
    have h := ih (step root s e)
    simp only [run, List.foldl_cons] at h ⊢
    rw [h, step_charts_length]
    by_cases he : e = Event.ready <;> simp [readies, List.filter_cons, he]
    all_goals omega

/-- C8, the code at the spec's example.  `initChartist` calls `Chartist.Pie`
at once, while the request it has just issued is still in flight, and the
object literal it passes has `labels` and `series` both `undefined`; when the
response `{labels: ["A","B"], series_pct: [30,70]}` arrives later (or any
other response, or a failure) no callback runs and the charts of the page stay
what they were.  The payload never reaches the chart. -/
theorem initChartist_ignores_payload (root : String) (s : Page) (result : Option Payload) :
    (initChartist root s).charts = s.charts ++
      [⟨"#chartNetworkAndDevices", ⟨true, 40, 0, 100, false, false⟩,
        ⟨JsVal.undefined, JsVal.undefined⟩⟩] ∧
    (initChartist root s).inflight
      = s.inflight ++ [⟨root ++ "/_network_pie_chart", Callback.ignore⟩] ∧
    (step root (initChartist root s)
        (.response s.inflight.length (some (.obj [("labels", .arr [.str "A", .str "B"]),
          ("series_pct", .arr [.int ⟨30, by decide⟩, .int ⟨70, by decide⟩])])))).charts = (initChartist root s).charts ∧
    (step root (initChartist root s) (.response s.inflight.length result)).charts
      = (initChartist root s).charts := by
  refine ⟨?_, ?_, ?_, ?_⟩
  · simp [initChartist, getJSON, optionsNetworkAndDevices, jqXHRProp]
  · simp [initChartist, getJSON]
  · simp [step, complete, initChartist, getJSON, List.getElem?_append_right]
  · cases result <;> simp [step, complete, initChartist, getJSON, List.getElem?_append_right]

/-- C9. The document-ready handler issues exactly one request, to
`/_network_pie_chart`, constructs exactly one chart, on
`#chartNetworkAndDevices` with the fixed options, and then shows the page-load
notification (the chart loader itself shows none); a timer tick, a click on
`#discover`, a click on a palette control and the arrival of a response issue
no request to `/_network_pie_chart` and construct no chart.  Hence from the
loaded page the requests to `/_network_pie_chart` and the charts constructed
both number the runs of the document-ready handler. -/
theorem chart_loads_once (root jq m l d t : String) (g : Option DisplayDiv) (s : Page)
    (c : Option String) (i : Nat) (result : Option Payload) (evs : List Event) :
    ((step root s .ready).requests = s.requests ++ [root ++ "/_network_pie_chart"] ∧
     (∃ chart, (step root s .ready).charts = s.charts ++ [chart] ∧
        chart.query = "#chartNetworkAndDevices" ∧
        chart.second = ⟨true, 40, 0, 100, false, false⟩) ∧
     (updatePieChart root s).notifications = s.notifications ∧
     (step root s .ready).notifications = s.notifications ++
        [⟨"ti-github",
          "Join the project on Github and contribute to this open source project !",
          "success", 4000⟩]) ∧
    (requestsTo (root ++ "/_network_pie_chart") (step root s .tick).requests
        = requestsTo (root ++ "/_network_pie_chart") s.requests ∧
     requestsTo (root ++ "/_network_pie_chart") (step root s .clickDiscover).requests
        = requestsTo (root ++ "/_network_pie_chart") s.requests ∧
     requestsTo (root ++ "/_network_pie_chart") (step root s (.clickPick c)).requests
        = requestsTo (root ++ "/_network_pie_chart") s.requests ∧
     requestsTo (root ++ "/_network_pie_chart") (step root s (.response i result)).requests
        = requestsTo (root ++ "/_network_pie_chart") s.requests ∧
     (step root s .tick).charts.length = s.charts.length ∧
     (step root s .clickDiscover).charts.length = s.charts.length ∧
     (step root s (.clickPick c)).charts.length = s.charts.length ∧
     (step root s (.response i result)).charts.length = s.charts.length) ∧
    (requestsTo (root ++ "/_network_pie_chart")
        (run root (Page.loaded jq m l d t g) evs).requests = readies evs ∧
     (run root (Page.loaded jq m l d t g) evs).charts.length = readies evs) := by
  refine ⟨⟨?_, ?_, ?_, ?_⟩, ⟨?_, ?_, ?_, ?_, ?_, ?_, ?_, ?_⟩, ?_, ?_⟩
  · simp [step, ready, updatePieChart, initChartist, notify, getJSON]
  · exact ⟨⟨"#chartNetworkAndDevices", optionsNetworkAndDevices,
      ⟨jqXHRProp "labels", jqXHRProp "series_pct"⟩⟩,
      by simp [step, ready, updatePieChart, initChartist, notify, getJSON], rfl, rfl⟩
  · simp [updatePieChart, initChartist, getJSON]
  · simp [step, ready, updatePieChart, initChartist, notify, getJSON, readyNote]
  · simp [step_requests, issued, requestsTo, List.filter_append, List.filter_cons, url_eq_iff]
  · simp [step_requests, issued, requestsTo, List.filter_append, List.filter_cons, url_eq_iff]
  · simp [step_requests, issued]
  · simp [step_requests, issued]
  · simp [step_charts_length]
  · simp [step_charts_length]
  · simp [step_charts_length]
  · simp [step_charts_length]
  · rw [run_requests]
    simp only [Page.loaded, List.nil_append]
    exact requestsTo_pie_issuedAll root evs
  · rw [run_charts_length]
    simp [Page.loaded]

end BAC0
